import Mathlib

/-!
Verification of the network-health monitor of `vimeo_monitor`
(`src/vimeo_monitor/network_monitor.py`), as a shallow embedding:
the data model (`NetworkStatus`, `MonitoringMode`, `ConnectivityTest`,
`NetworkMetrics`, `NetworkTarget`, `FallbackStrategy`) and the pure
logic of the monitor (metrics update, status aggregation, mode state
machine, fallback cascade, target selection, target validation) are
translated into executable Lean definitions, and the specified
properties are proved about them.  Time stamps are abstracted to `Nat`
and real-valued durations/percentages to `ℚ`.
-/

namespace VimeoMonitor

/-- The `NetworkStatus` enum from the source. -/
inductive NetworkStatus where
  | healthy
  | degraded
  | failing
  | offline
  | unknown
deriving DecidableEq, Repr

/-- The `MonitoringMode` enum from the source. -/
inductive MonitoringMode where
  | normal
  | degraded
  | failure
  | recovery
deriving DecidableEq, Repr

/-- The `ConnectivityTest` named tuple: result of one probe attempt.
`response_time` is in seconds (modelled as `ℚ`), `timestamp` abstract. -/
structure ConnectivityTest where
  success : Bool
  response_time : ℚ
  error : Option String
  timestamp : Nat
deriving DecidableEq, Repr

/-- Model of Python `str.startswith`: byte/char-level prefix test. -/
def pyStartsWith (s pre : String) : Bool :=
  pre.data.isPrefixOf s.data

/-- The `fallback:` marker test used throughout the source:
`t.success and t.error and t.error.startswith("fallback:")`. -/
def isFallbackSuccess (t : ConnectivityTest) : Bool :=
  t.success && (match t.error with
    | some e => e ≠ "" && pyStartsWith e "fallback:"
    | none => false)

/-- The `NetworkMetrics` dataclass: one mutable record per target. -/
structure NetworkMetrics where
  total_tests : Nat := 0
  successful_tests : Nat := 0
  failed_tests : Nat := 0
  average_response_time : ℚ := 0
  current_status : NetworkStatus := .unknown
  last_success_time : Option Nat := none
  last_failure_time : Option Nat := none
  consecutive_failures : Nat := 0
  consecutive_successes : Nat := 0
  uptime_percent : ℚ := 100
  /-- Field `recent_tests`, a `deque(maxlen=100)`, oldest element first. -/
  recent_tests : List ConnectivityTest := []
deriving DecidableEq, Repr

/-- The `NetworkTarget` dataclass (fields only; `__post_init__` validation is
modelled separately by `postInitCheck`). -/
structure NetworkTarget where
  name : String
  host : String
  port : Int := 80
  timeout : ℚ := 5
  protocol : String := "tcp"
  critical : Bool := false
  priority : Int := 1
  fallback_hosts : List String := []
deriving DecidableEq, Repr

/-- Model of `NetworkTarget.__post_init__`: validation performed at construction
time; returns the raised error message, or `ok` when construction
succeeds. -/
def postInitCheck (t : NetworkTarget) : Except String Unit :=
  if t.protocol ∉ ["tcp", "http", "https", "icmp"] then
    .error ("Unsupported protocol: " ++ t.protocol)
  else if t.port < 1 ∨ t.port > 65535 then
    .error ("Invalid port: " ++ toString t.port)
  else if t.priority < 1 ∨ t.priority > 3 then
    .error ("Priority must be 1-3, got: " ++ toString t.priority)
  else
    .ok ()

/-- The `FallbackStrategy` dataclass with the default values of the source. -/
structure FallbackStrategy where
  normal_interval : Int := 30
  degraded_interval : Int := 45
  failure_interval : Int := 60
  recovery_interval : Int := 15
  degraded_threshold : Int := 2
  failure_threshold : Int := 4
  recovery_threshold : Int := 3
  enable_priority_monitoring : Bool := true
  critical_only_in_failure : Bool := true
  enable_endpoint_fallback : Bool := true
  fallback_timeout_multiplier : ℚ := 3 / 2
  enable_adaptive_backoff : Bool := true
  max_backoff_multiplier : ℚ := 3
  backoff_recovery_factor : ℚ := 4 / 5
deriving DecidableEq, Repr

/-- Appending to a `deque(maxlen=cap)`: when full, the oldest (front)
element is discarded. -/
def dequeAppend (cap : Nat) (xs : List α) (x : α) : List α :=
  (xs ++ [x]).drop ((xs ++ [x]).length - cap)

/-- Python `list(xs)[-n:]`. -/
def lastN (n : Nat) (xs : List α) : List α :=
  xs.drop (xs.length - n)

/-- Block one of `_update_target_metrics`: update the basic counters and
streaks for the new result. -/
def updateCounters (m : NetworkMetrics) (tr : ConnectivityTest) :
    NetworkMetrics :=
  if tr.success then
    { m with
      total_tests := m.total_tests + 1
      successful_tests := m.successful_tests + 1
      consecutive_successes := m.consecutive_successes + 1
      consecutive_failures := 0
      last_success_time := some tr.timestamp }
  else
    { m with
      total_tests := m.total_tests + 1
      failed_tests := m.failed_tests + 1
      consecutive_failures := m.consecutive_failures + 1
      consecutive_successes := 0
      last_failure_time := some tr.timestamp }

/-- Step `metrics.recent_tests.append(test_result)` of `_update_target_metrics`,
on the capacity-100 deque. -/
def appendRecent (m : NetworkMetrics) (tr : ConnectivityTest) :
    NetworkMetrics :=
  { m with recent_tests := dequeAppend 100 m.recent_tests tr }

/-- The response times of the successful tests in the window:
`successful_times` in `_update_target_metrics`. -/
def successfulTimes (m : NetworkMetrics) : List ℚ :=
  (m.recent_tests.filter (fun t => t.success)).map (fun t => t.response_time)

/-- Step of `_update_target_metrics` that recomputes `average_response_time` as the
mean of the successful tests in the window (unchanged when none). -/
def updateAvgResponseTime (m : NetworkMetrics) : NetworkMetrics :=
  if (successfulTimes m).length > 0 then
    { m with average_response_time :=
        (successfulTimes m).sum / ((successfulTimes m).length : ℚ) }
  else m

/-- Step of `_update_target_metrics` that recomputes `uptime_percent` as the window
success ratio × 100 (unchanged when the window is empty). -/
def updateUptime (m : NetworkMetrics) : NetworkMetrics :=
  if m.recent_tests.length > 0 then
    { m with uptime_percent :=
        (((m.recent_tests.filter (fun t => t.success)).length : ℚ)
          / (m.recent_tests.length : ℚ)) * 100 }
  else m

/-- Steps of `_update_target_metrics` that recompute `average_response_time` and
`uptime_percent`, in the order of the source. -/
def updateAverages (m : NetworkMetrics) : NetworkMetrics :=
  updateUptime (updateAvgResponseTime m)

/-- Last block of `_update_target_metrics`: recompute `current_status` from
the streak counters and the strategy thresholds, in the order of the source. -/
def updateStatusThresholds (s : FallbackStrategy) (m : NetworkMetrics) :
    NetworkMetrics :=
  if (m.consecutive_failures : Int) ≥ s.failure_threshold then
    { m with current_status := .failing }
  else if (m.consecutive_failures : Int) ≥ s.degraded_threshold then
    { m with current_status := .degraded }
  else if (m.consecutive_successes : Int) ≥ s.recovery_threshold then
    { m with current_status := .healthy }
  else m

/-- Model of `NetworkMonitor._update_target_metrics`, lock and logging removed:
pure update of the `NetworkMetrics` of one target with one test result. -/
def updateTargetMetrics (s : FallbackStrategy) (m : NetworkMetrics)
    (tr : ConnectivityTest) : NetworkMetrics :=
  updateStatusThresholds s (updateAverages (appendRecent (updateCounters m tr) tr))

/-! ### Status aggregation (`_update_overall_status`) -/

/-- Number of fallback-flagged successes among the last 10 entries of a
window of a target: `recent_fallback_successes` in `_update_overall_status`. -/
def recentFallbackSuccesses (m : NetworkMetrics) : Nat :=
  ((lastN 10 m.recent_tests).filter isFallbackSuccess).length

/-- Counter `critical_failures`: critical targets whose current status is Failing. -/
def criticalFailures (pairs : List (NetworkTarget × NetworkMetrics)) : Nat :=
  pairs.countP (fun p => p.1.critical && p.2.current_status == NetworkStatus.failing)

/-- Counter `total_critical`: number of critical targets. -/
def totalCritical (pairs : List (NetworkTarget × NetworkMetrics)) : Nat :=
  pairs.countP (fun p => p.1.critical)

/-- Flag `any_degraded` as the source computes it: a critical target counts
when Degraded; a non-critical target counts when Degraded or Failing. -/
def anyDegraded (pairs : List (NetworkTarget × NetworkMetrics)) : Bool :=
  pairs.any (fun p =>
    if p.1.critical then p.2.current_status == NetworkStatus.degraded
    else p.2.current_status == NetworkStatus.degraded
      || p.2.current_status == NetworkStatus.failing)

/-- Counter `fallback_successes`: number of targets with at least one
fallback-flagged success among their last 10 window entries. -/
def fallbackSuccesses (pairs : List (NetworkTarget × NetworkMetrics)) : Nat :=
  pairs.countP (fun p => 0 < recentFallbackSuccesses p.2)

/-- Model of `NetworkMonitor._update_overall_status`, lock/logging removed: the
aggregation of the current statuses of all targets into one overall status.
Each target is paired with its metrics record, in registry order. -/
def updateOverallStatus (pairs : List (NetworkTarget × NetworkMetrics)) :
    NetworkStatus :=
  if 0 < totalCritical pairs ∧ totalCritical pairs ≤ criticalFailures pairs then
    .offline
  else if 0 < criticalFailures pairs then
    if 0 < fallbackSuccesses pairs then .degraded else .failing
  else if anyDegraded pairs = true ∨ 0 < fallbackSuccesses pairs then
    .degraded
  else .healthy

/-- Spec-side: every critical target is Failing. -/
def allCriticalFailing (pairs : List (NetworkTarget × NetworkMetrics)) : Bool :=
  pairs.all (fun p =>
    !p.1.critical || p.2.current_status == NetworkStatus.failing)

/-- Spec-side: some critical target is Failing. -/
def someCriticalFailing (pairs : List (NetworkTarget × NetworkMetrics)) : Bool :=
  pairs.any (fun p =>
    p.1.critical && p.2.current_status == NetworkStatus.failing)

/-- Spec-side: some target (critical or not) is Degraded or Failing. -/
def anyTargetDegradedOrFailing (pairs : List (NetworkTarget × NetworkMetrics)) :
    Bool :=
  pairs.any (fun p =>
    p.2.current_status == NetworkStatus.degraded
      || p.2.current_status == NetworkStatus.failing)

/-- Spec-side: the recent history of some target holds a fallback-flagged
success. -/
def anyRecentFallback (pairs : List (NetworkTarget × NetworkMetrics)) : Bool :=
  pairs.any (fun p => 0 < recentFallbackSuccesses p.2)

/-! ### Mode state machine (`_update_monitoring_mode`) -/

/-- The mutable mode-related state of the monitor. -/
structure ModeState where
  monitoring_mode : MonitoringMode
  last_mode_change : Nat
  mode_change_count : Int
deriving DecidableEq, Repr

/-- The direct status-to-mode mapping at the top of
`_update_monitoring_mode` (`unknown` defaults to Normal). -/
def statusToMode : NetworkStatus → MonitoringMode
  | .healthy => .normal
  | .degraded => .degraded
  | .failing => .failure
  | .offline => .failure
  | .unknown => .normal

/-- The new mode after the two recovery-hysteresis exceptions in
`_update_monitoring_mode`. -/
def computeNewMode (overall : NetworkStatus)
    (metricsList : List NetworkMetrics) (old : MonitoringMode) :
    MonitoringMode :=
  if old = .failure ∧ statusToMode overall = .normal then
    .recovery
  else if old = .recovery ∧ statusToMode overall = .normal then
    if metricsList.any (fun mm => 0 < mm.consecutive_failures) then .recovery
    else statusToMode overall
  else statusToMode overall

/-- Model of `NetworkMonitor._update_monitoring_mode`, logging removed: compute
the new mode and, on an actual change, stamp `last_mode_change` and
adjust `mode_change_count` exactly as the source does. -/
def updateMonitoringMode (overall : NetworkStatus)
    (metricsList : List NetworkMetrics) (now : Nat) (st : ModeState) :
    ModeState :=
  if computeNewMode overall metricsList st.monitoring_mode
      ≠ st.monitoring_mode then
    { monitoring_mode := computeNewMode overall metricsList st.monitoring_mode
      last_mode_change := now
      mode_change_count :=
        if computeNewMode overall metricsList st.monitoring_mode = .normal then
          max 0 (st.mode_change_count + 1 - 1)
        else st.mode_change_count + 1 }
  else st

/-! ### Fallback cascade (`_test_target_with_fallback`) -/

/-- The synthetic target built for one fallback host: same
port/protocol/criticality/priority, timeout multiplied by the fallback multiplier of the strategy. -/
def fallbackTarget (s : FallbackStrategy) (target : NetworkTarget)
    (fb : String) : NetworkTarget :=
  { name := target.name ++ "_fallback"
    host := fb
    port := target.port
    timeout := target.timeout * s.fallback_timeout_multiplier
    protocol := target.protocol
    critical := target.critical
    priority := target.priority }

/-- The `for fallback_host in target.fallback_hosts` loop: first
fallback success (rewritten with the `fallback:<host>` marker), or
`none` when every fallback fails. -/
def tryFallbackHosts (s : FallbackStrategy)
    (probe : NetworkTarget → ConnectivityTest) (target : NetworkTarget) :
    List String → Option ConnectivityTest
  | [] => none
  | fb :: rest =>
    if (probe (fallbackTarget s target fb)).success then
      some { success := true
             response_time := (probe (fallbackTarget s target fb)).response_time
             error := some ("fallback:" ++ fb)
             timestamp := (probe (fallbackTarget s target fb)).timestamp }
    else tryFallbackHosts s probe target rest

/-- Model of `NetworkMonitor._test_target_with_fallback`, with the underlying
probe (`_test_target_connectivity`) abstracted as a function argument:
the network call itself is I/O and lies outside the embedding. -/
def testTargetWithFallback (s : FallbackStrategy)
    (probe : NetworkTarget → ConnectivityTest) (target : NetworkTarget) :
    ConnectivityTest :=
  if (probe target).success || !s.enable_endpoint_fallback then
    probe target
  else
    match tryFallbackHosts s probe target target.fallback_hosts with
    | some r => r
    | none => probe target

/-! ### Adaptive target selection (`_get_targets_for_current_mode`) -/

/-- Model of `NetworkMonitor._get_targets_for_current_mode`, logging removed. -/
def getTargetsForCurrentMode (s : FallbackStrategy) (mode : MonitoringMode)
    (targets : List NetworkTarget) : List NetworkTarget :=
  if !s.enable_priority_monitoring then
    targets
  else if mode = .failure ∧ s.critical_only_in_failure then
    targets.filter (fun t => t.critical)
  else if mode = .degraded then
    targets.filter (fun t => t.critical || t.priority ≤ 2)
  else
    targets

/-! ### Concrete fixtures used by the witness theorems -/

/-- A successful probe result. -/
def okTest : ConnectivityTest :=
  { success := true, response_time := 1, error := none, timestamp := 5 }

/-- A failed probe result carrying a TCP-style error message. -/
def failTest : ConnectivityTest :=
  { success := false, response_time := 2,
    error := some "TCP connection failed (code: 111)", timestamp := 6 }

/-- A probe that succeeds exactly on host `fb2`. -/
def probeOnlyFb2 (t : NetworkTarget) : ConnectivityTest :=
  if t.host = "fb2" then okTest else failTest

/-- A probe that fails on every host. -/
def probeAllFail (_ : NetworkTarget) : ConnectivityTest :=
  failTest

/-- A critical TCP target with two fallback hosts. -/
def tcpTargetW : NetworkTarget :=
  { name := "t1", host := "203.0.113.1", port := 9, timeout := 5,
    protocol := "tcp", critical := true, priority := 1,
    fallback_hosts := ["fb1", "fb2"] }

/-- A non-critical, low-priority HTTP target. -/
def httpTargetW : NetworkTarget :=
  { name := "http_test", host := "httpbin.org", port := 80, timeout := 8,
    protocol := "http", critical := false, priority := 3 }

/-- A second critical TCP target (DNS-style). -/
def dnsTargetW : NetworkTarget :=
  { name := "dns_google", host := "8.8.8.8", port := 53, timeout := 5,
    protocol := "tcp", critical := true, priority := 1,
    fallback_hosts := ["8.8.4.4", "1.1.1.1"] }

/-- Metrics record currently marked Failing. -/
def failingMetricsW : NetworkMetrics :=
  { current_status := .failing, consecutive_failures := 4 }

/-- Metrics record currently marked Healthy. -/
def healthyMetricsW : NetworkMetrics :=
  { current_status := .healthy, consecutive_successes := 3 }

theorem updateAverages_consecutive_failures (m : NetworkMetrics) :
    (updateAverages m).consecutive_failures = m.consecutive_failures := by
  unfold updateAverages updateUptime updateAvgResponseTime
  split <;> split <;> rfl

theorem updateAverages_consecutive_successes (m : NetworkMetrics) :
    (updateAverages m).consecutive_successes = m.consecutive_successes := by
  unfold updateAverages updateUptime updateAvgResponseTime
  split <;> split <;> rfl

theorem updateAverages_recent_tests (m : NetworkMetrics) :
    (updateAverages m).recent_tests = m.recent_tests := by
  unfold updateAverages updateUptime updateAvgResponseTime
  split <;> split <;> rfl

theorem updateStatusThresholds_consecutive_failures (s : FallbackStrategy)
    (m : NetworkMetrics) :
    (updateStatusThresholds s m).consecutive_failures
      = m.consecutive_failures := by
  unfold updateStatusThresholds
  split <;> try split
  any_goals rfl
  split <;> rfl

theorem updateStatusThresholds_consecutive_successes (s : FallbackStrategy)
    (m : NetworkMetrics) :
    (updateStatusThresholds s m).consecutive_successes
      = m.consecutive_successes := by
  unfold updateStatusThresholds
  split <;> try split
  any_goals rfl
  split <;> rfl

theorem updateStatusThresholds_recent_tests (s : FallbackStrategy)
    (m : NetworkMetrics) :
    (updateStatusThresholds s m).recent_tests = m.recent_tests := by
  unfold updateStatusThresholds
  split <;> try split
  any_goals rfl
  split <;> rfl

theorem updateStatusThresholds_uptime_percent (s : FallbackStrategy)
    (m : NetworkMetrics) :
    (updateStatusThresholds s m).uptime_percent = m.uptime_percent := by
  unfold updateStatusThresholds
  split <;> try split
  any_goals rfl
  split <;> rfl

/-- C5: after any single metrics update, `consecutive_failures` and
`consecutive_successes` are mutually exclusive; a success increments
`consecutive_successes` and zeroes `consecutive_failures`, a failure the
mirror image. -/
theorem consecutive_counters_mutually_exclusive
    (s : FallbackStrategy) (m : NetworkMetrics) (tr : ConnectivityTest) :
    (0 < (updateTargetMetrics s m tr).consecutive_failures →
      (updateTargetMetrics s m tr).consecutive_successes = 0)
    ∧ (0 < (updateTargetMetrics s m tr).consecutive_successes →
      (updateTargetMetrics s m tr).consecutive_failures = 0)
    ∧ (tr.success = true →
      (updateTargetMetrics s m tr).consecutive_successes
        = m.consecutive_successes + 1
      ∧ (updateTargetMetrics s m tr).consecutive_failures = 0)
    ∧ (tr.success = false →
      (updateTargetMetrics s m tr).consecutive_failures
        = m.consecutive_failures + 1
      ∧ (updateTargetMetrics s m tr).consecutive_successes = 0) := by
  have hf : (updateTargetMetrics s m tr).consecutive_failures
      = (updateCounters m tr).consecutive_failures := by
    unfold updateTargetMetrics
    rw [updateStatusThresholds_consecutive_failures,
      updateAverages_consecutive_failures]
    rfl
  have hs : (updateTargetMetrics s m tr).consecutive_successes
      = (updateCounters m tr).consecutive_successes := by
    unfold updateTargetMetrics
    rw [updateStatusThresholds_consecutive_successes,
      updateAverages_consecutive_successes]
    rfl
  rw [hf, hs]
  cases h : tr.success <;>
    simp [updateCounters, h]

/-- C5 witness: the mutual-exclusion facts at a concrete success result. -/
theorem consecutive_counters_mutually_exclusive_witness :
    (updateTargetMetrics {} { consecutive_failures := 7 }
      { success := true, response_time := 1, error := none, timestamp := 0
      }).consecutive_successes = 0 + 1
    ∧ (updateTargetMetrics {} { consecutive_failures := 7 }
      { success := true, response_time := 1, error := none, timestamp := 0
      }).consecutive_failures = 0 :=
  (consecutive_counters_mutually_exclusive {} { consecutive_failures := 7 }
    { success := true, response_time := 1, error := none,
      timestamp := 0 }).2.2.1 rfl

theorem updateAvgResponseTime_recent_tests (m : NetworkMetrics) :
    (updateAvgResponseTime m).recent_tests = m.recent_tests := by
  unfold updateAvgResponseTime
  split <;> rfl

theorem updateUptime_recent_tests (m : NetworkMetrics) :
    (updateUptime m).recent_tests = m.recent_tests := by
  unfold updateUptime
  split <;> rfl

theorem updateUptime_uptime_pos (m : NetworkMetrics)
    (h : 0 < m.recent_tests.length) :
    (updateUptime m).uptime_percent
      = ((m.recent_tests.filter (fun t => t.success)).length : ℚ)
        / (m.recent_tests.length : ℚ) * 100 := by
  unfold updateUptime
  rw [if_pos h]

theorem updateTargetMetrics_recent_tests (s : FallbackStrategy)
    (m : NetworkMetrics) (tr : ConnectivityTest) :
    (updateTargetMetrics s m tr).recent_tests
      = dequeAppend 100 m.recent_tests tr := by
  unfold updateTargetMetrics
  rw [updateStatusThresholds_recent_tests, updateAverages_recent_tests]
  show (dequeAppend 100 (updateCounters m tr).recent_tests tr) = _
  have : (updateCounters m tr).recent_tests = m.recent_tests := by
    unfold updateCounters
    split <;> rfl
  rw [this]

theorem dequeAppend_length (cap : Nat) (xs : List α) (x : α) :
    (dequeAppend cap xs x).length = min (xs.length + 1) cap := by
  unfold dequeAppend
  simp [List.length_drop]
  omega

theorem window_le_step (s : FallbackStrategy) (m : NetworkMetrics)
    (tr : ConnectivityTest) (h : m.recent_tests.length ≤ 100) :
    (updateTargetMetrics s m tr).recent_tests.length ≤ 100 := by
  rw [updateTargetMetrics_recent_tests, dequeAppend_length]
  omega

theorem window_le_fold (s : FallbackStrategy)
    (trs : List ConnectivityTest) :
    ∀ m : NetworkMetrics, m.recent_tests.length ≤ 100 →
      ((trs.foldl (updateTargetMetrics s) m).recent_tests.length ≤ 100) := by
  induction trs with
  | nil =>
    intro m h
    exact h
  | cons tr0 rest ih =>
    intro m h
    exact ih _ (window_le_step s m tr0 h)

/-- C6: the recent-history window is a capacity-100 FIFO: a whole
sequence of updates never grows it beyond 100 entries, appending to a
full window evicts exactly the oldest entry, and appending to a non-full
window keeps every entry. -/
theorem recent_tests_window_bounded (s : FallbackStrategy)
    (m : NetworkMetrics) (tr : ConnectivityTest) :
    (m.recent_tests.length ≤ 100 →
      (updateTargetMetrics s m tr).recent_tests.length ≤ 100)
    ∧ (m.recent_tests.length = 100 →
      (updateTargetMetrics s m tr).recent_tests
        = m.recent_tests.tail ++ [tr])
    ∧ (m.recent_tests.length < 100 →
      (updateTargetMetrics s m tr).recent_tests = m.recent_tests ++ [tr])
    ∧ (m.recent_tests.length ≤ 100 → ∀ trs : List ConnectivityTest,
      ((trs.foldl (updateTargetMetrics s) m).recent_tests.length ≤ 100)) := by
  have hfold : m.recent_tests.length ≤ 100 →
      ∀ trs : List ConnectivityTest,
      ((trs.foldl (updateTargetMetrics s) m).recent_tests.length ≤ 100) :=
    fun h trs => window_le_fold s trs m h
  rw [updateTargetMetrics_recent_tests]
  refine ⟨?_, ?_, ?_, hfold⟩
  · intro _
    rw [dequeAppend_length]
    omega
  · intro h
    unfold dequeAppend
    have hlen : (m.recent_tests ++ [tr]).length - 100 = 1 := by
      simp [h]
    rw [hlen, List.drop_one]
    cases hx : m.recent_tests with
    | nil => simp [hx] at h
    | cons a l => simp
  · intro h
    unfold dequeAppend
    have hlen : (m.recent_tests ++ [tr]).length - 100 = 0 := by
      simp; omega
    rw [hlen, List.drop_zero]

/-- C6 witness: appending the 101st entry to a full window evicts the
oldest entry. -/
theorem recent_tests_window_bounded_witness :
    (updateTargetMetrics {}
      { recent_tests := List.replicate 100
          { success := true, response_time := 0, error := none, timestamp := 0 } }
      { success := false, response_time := 0, error := none, timestamp := 1
      }).recent_tests
      = (List.replicate 100
          { success := true, response_time := 0, error := none,
            timestamp := 0 } : List ConnectivityTest).tail
        ++ [{ success := false, response_time := 0, error := none,
              timestamp := 1 }] :=
  (recent_tests_window_bounded {}
    { recent_tests := List.replicate 100
        { success := true, response_time := 0, error := none, timestamp := 0 } }
    { success := false, response_time := 0, error := none,
      timestamp := 1 }).2.1 (by simp)

/-- C7: after every metrics update, `uptime_percent` equals the number of
successful tests in the (necessarily non-empty) window divided by the
window size, times 100, and lies in `[0, 100]`. -/
theorem uptime_percent_window_ratio (s : FallbackStrategy)
    (m : NetworkMetrics) (tr : ConnectivityTest) :
    0 < (updateTargetMetrics s m tr).recent_tests.length
    ∧ (updateTargetMetrics s m tr).uptime_percent
      = (((updateTargetMetrics s m tr).recent_tests.filter
            (fun t => t.success)).length : ℚ)
        / ((updateTargetMetrics s m tr).recent_tests.length : ℚ) * 100
    ∧ 0 ≤ (updateTargetMetrics s m tr).uptime_percent
    ∧ (updateTargetMetrics s m tr).uptime_percent ≤ 100 := by
  have hlen : 0 < (updateTargetMetrics s m tr).recent_tests.length := by
    rw [updateTargetMetrics_recent_tests, dequeAppend_length]
    omega
  have hY : 0 < (updateAvgResponseTime
      (appendRecent (updateCounters m tr) tr)).recent_tests.length := by
    rw [updateAvgResponseTime_recent_tests]
    show 0 < (dequeAppend 100 (updateCounters m tr).recent_tests tr).length
    rw [dequeAppend_length]
    omega
  have hup : (updateTargetMetrics s m tr).uptime_percent
      = (((updateTargetMetrics s m tr).recent_tests.filter
            (fun t => t.success)).length : ℚ)
        / ((updateTargetMetrics s m tr).recent_tests.length : ℚ) * 100 := by
    unfold updateTargetMetrics
    rw [updateStatusThresholds_uptime_percent,
      updateStatusThresholds_recent_tests]
    unfold updateAverages
    rw [updateUptime_recent_tests]
    exact updateUptime_uptime_pos _ hY
  refine ⟨hlen, hup, ?_, ?_⟩
  · rw [hup]
    positivity
  · rw [hup]
    set w := (updateTargetMetrics s m tr).recent_tests
    have hle : ((w.filter (fun t => t.success)).length : ℚ)
        / (w.length : ℚ) ≤ 1 := by
      rw [div_le_one (by exact_mod_cast hlen)]
      exact_mod_cast List.length_filter_le _ _
    calc ((w.filter (fun t => t.success)).length : ℚ) / (w.length : ℚ) * 100
        ≤ 1 * 100 := by
          exact mul_le_mul_of_nonneg_right hle (by norm_num)
      _ = 100 := by norm_num

/-- C9: `NetworkTarget` construction succeeds exactly when the protocol
is one of tcp/http/https/icmp, the port lies in `[1, 65535]`, and the
priority lies in `{1, 2, 3}`; any violation is reported at construction
time, and no other field is validated. -/
theorem postInitCheck_ok_iff (t : NetworkTarget) :
    ((postInitCheck t = .ok ()) ↔
      (t.protocol ∈ ["tcp", "http", "https", "icmp"]
        ∧ 1 ≤ t.port ∧ t.port ≤ 65535 ∧ 1 ≤ t.priority ∧ t.priority ≤ 3))
    ∧ ((∃ e, postInitCheck t = .error e) ↔
      ¬(t.protocol ∈ ["tcp", "http", "https", "icmp"]
        ∧ 1 ≤ t.port ∧ t.port ≤ 65535 ∧ 1 ≤ t.priority ∧ t.priority ≤ 3)) := by
  unfold postInitCheck
  split
  · constructor
    · constructor
      · intro h
        exact absurd h (by simp)
      · intro h
        tauto
    · constructor
      · intro _
        tauto
      · intro _
        exact ⟨_, rfl⟩
  · split
    · constructor
      · constructor
        · intro h
          exact absurd h (by simp)
        · intro h
          omega
      · constructor
        · intro _
          omega
        · intro _
          exact ⟨_, rfl⟩
    · split
      · constructor
        · constructor
          · intro h
            exact absurd h (by simp)
          · intro h
            omega
        · constructor
          · intro _
            omega
          · intro _
            exact ⟨_, rfl⟩
      · constructor
        · constructor
          · intro _
            refine ⟨by tauto, by omega⟩
          · intro _
            rfl
        · constructor
          · rintro ⟨e, he⟩
            exact absurd he (by simp)
          · intro h
            exact absurd ⟨by tauto, by omega⟩ h

/-- C8: target selection per monitoring mode — all targets when priority
monitoring is disabled; only critical targets in Failure mode with
critical-only enabled; critical-or-priority ≤ 2 targets in Degraded mode;
all targets in Normal and Recovery modes. -/
theorem target_selection_by_mode (s : FallbackStrategy)
    (mode : MonitoringMode) (targets : List NetworkTarget) :
    (s.enable_priority_monitoring = false →
      getTargetsForCurrentMode s mode targets = targets)
    ∧ (s.enable_priority_monitoring = true →
      s.critical_only_in_failure = true →
      getTargetsForCurrentMode s .failure targets
        = targets.filter (fun t => t.critical))
    ∧ (s.enable_priority_monitoring = true →
      getTargetsForCurrentMode s .degraded targets
        = targets.filter (fun t => t.critical || t.priority ≤ 2))
    ∧ (s.enable_priority_monitoring = true →
      (mode = .normal ∨ mode = .recovery) →
      getTargetsForCurrentMode s mode targets = targets) := by
  refine ⟨?_, ?_, ?_, ?_⟩
  · intro h
    simp [getTargetsForCurrentMode, h]
  · intro h1 h2
    simp [getTargetsForCurrentMode, h1, h2]
  · intro h1
    simp [getTargetsForCurrentMode, h1]
  · intro h1 h2
    rcases h2 with h2 | h2 <;> subst h2 <;>
      simp [getTargetsForCurrentMode, h1]

/-- C8 witness: in Failure mode with default strategy toggles, only the
critical target is selected. -/
theorem target_selection_by_mode_witness :
    getTargetsForCurrentMode {} .failure [tcpTargetW, httpTargetW]
      = [tcpTargetW, httpTargetW].filter (fun t => t.critical) :=
  (target_selection_by_mode {} .failure [tcpTargetW, httpTargetW]).2.1 rfl rfl

theorem updateMonitoringMode_mode (overall : NetworkStatus)
    (metricsList : List NetworkMetrics) (now : Nat) (st : ModeState) :
    (updateMonitoringMode overall metricsList now st).monitoring_mode
      = computeNewMode overall metricsList st.monitoring_mode := by
  unfold updateMonitoringMode
  split
  · rfl
  · next h =>
    push_neg at h
    exact h.symm

/-- C2: mode-machine hysteresis — from Failure mode a Normal-computing
status yields Recovery (never Normal, so a direct Failure-to-Normal step
is impossible); from Recovery mode a Normal-computing status yields
Normal exactly when the `consecutive_failures` of every target is zero,
and stays in Recovery whenever some target still has a failure streak. -/
theorem mode_machine_hysteresis (overall : NetworkStatus)
    (metricsList : List NetworkMetrics) (now : Nat) (st : ModeState) :
    (st.monitoring_mode = .failure → statusToMode overall = .normal →
      (updateMonitoringMode overall metricsList now st).monitoring_mode
        = .recovery)
    ∧ (st.monitoring_mode = .recovery → statusToMode overall = .normal →
      (((updateMonitoringMode overall metricsList now st).monitoring_mode
          = .normal
        ↔ ∀ mm ∈ metricsList, mm.consecutive_failures = 0)
       ∧ ((∃ mm ∈ metricsList, mm.consecutive_failures ≠ 0) →
        (updateMonitoringMode overall metricsList now st).monitoring_mode
          = .recovery)))
    ∧ (st.monitoring_mode = .failure →
      (updateMonitoringMode overall metricsList now st).monitoring_mode
        ≠ .normal) := by
  rw [show ((updateMonitoringMode overall metricsList now st).monitoring_mode
      = computeNewMode overall metricsList st.monitoring_mode) from
    updateMonitoringMode_mode overall metricsList now st]
  refine ⟨?_, ?_, ?_⟩
  · intro h1 h2
    unfold computeNewMode
    rw [if_pos ⟨h1, h2⟩]
  · intro h1 h2
    unfold computeNewMode
    rw [if_neg (by simp [h1]), if_pos ⟨h1, h2⟩]
    constructor
    · constructor
      · intro h3
        intro mm hmm
        by_contra hne
        have : metricsList.any (fun mm => 0 < mm.consecutive_failures) = true := by
          rw [List.any_eq_true]
          exact ⟨mm, hmm, by simpa using Nat.pos_of_ne_zero hne⟩
        rw [if_pos this] at h3
        exact absurd h3 (by simp)
      · intro h3
        have : metricsList.any (fun mm => 0 < mm.consecutive_failures) = false := by
          rw [List.any_eq_false]
          intro mm hmm
          simp [h3 mm hmm]
        rw [if_neg (by simp [this]), h2]
    · rintro ⟨mm, hmm, hne⟩
      have : metricsList.any (fun mm => 0 < mm.consecutive_failures) = true := by
        rw [List.any_eq_true]
        exact ⟨mm, hmm, by simpa using Nat.pos_of_ne_zero hne⟩
      rw [if_pos this]
  · intro h1
    unfold computeNewMode
    cases hb : statusToMode overall <;> simp [h1, hb]

/-- C2 witness: in Failure mode with a Healthy aggregate, the next mode
is Recovery; in Recovery mode with a Healthy aggregate and a still-failing
target, the mode stays Recovery. -/
theorem mode_machine_hysteresis_witness :
    (updateMonitoringMode .healthy [failingMetricsW] 7
      { monitoring_mode := .failure, last_mode_change := 0,
        mode_change_count := 2 }).monitoring_mode = .recovery
    ∧ (updateMonitoringMode .healthy [failingMetricsW] 8
      { monitoring_mode := .recovery, last_mode_change := 0,
        mode_change_count := 2 }).monitoring_mode = .recovery := by
  constructor
  · exact (mode_machine_hysteresis .healthy [failingMetricsW] 7
      { monitoring_mode := .failure, last_mode_change := 0,
        mode_change_count := 2 }).1 rfl rfl
  · exact ((mode_machine_hysteresis .healthy [failingMetricsW] 8
      { monitoring_mode := .recovery, last_mode_change := 0,
        mode_change_count := 2 }).2.1 rfl rfl).2
      ⟨failingMetricsW, by simp, by simp [failingMetricsW]⟩

/-- C4 counterexample: a cycle that computes Normal mode with no actual
mode change leaves `mode_change_count` untouched — it is not decremented
toward zero as the claim states. -/
theorem mode_change_count_no_decay_counterexample :
    (updateMonitoringMode .healthy [] 100
      { monitoring_mode := .normal, last_mode_change := 0,
        mode_change_count := 5 }).mode_change_count = 5
    ∧ ¬ (updateMonitoringMode .healthy [] 100
      { monitoring_mode := .normal, last_mode_change := 0,
        mode_change_count := 5 }).mode_change_count = 4 := by
  constructor
  · rfl
  · intro h
    simp [updateMonitoringMode, computeNewMode, statusToMode] at h

/-- C4 amended: on a cycle without an actual mode change — including
stable Normal cycles — the whole mode state (so in particular
`mode_change_count`) is unchanged; on an actual mode change,
`last_mode_change` is set to the current time and `mode_change_count` is
incremented, except that a change into Normal mode immediately decrements
it again (clamped at zero), leaving it unchanged on net. -/
theorem mode_change_count_update (overall : NetworkStatus)
    (metricsList : List NetworkMetrics) (now : Nat) (st : ModeState) :
    (computeNewMode overall metricsList st.monitoring_mode
        = st.monitoring_mode →
      updateMonitoringMode overall metricsList now st = st)
    ∧ (computeNewMode overall metricsList st.monitoring_mode
        ≠ st.monitoring_mode →
      (updateMonitoringMode overall metricsList now st).last_mode_change = now
      ∧ (updateMonitoringMode overall metricsList now st).mode_change_count
        = (if computeNewMode overall metricsList st.monitoring_mode = .normal
           then max 0 (st.mode_change_count + 1 - 1)
           else st.mode_change_count + 1)) := by
  constructor
  · intro h
    unfold updateMonitoringMode
    rw [if_neg (by simp [h])]
  · intro h
    unfold updateMonitoringMode
    rw [if_pos h]
    exact ⟨rfl, rfl⟩

/-- C4 amended witness: an actual change from Normal to Degraded stamps
the change time and increments the counter; a change from Failure into
Normal-computed Recovery also increments. -/
theorem mode_change_count_update_witness :
    (updateMonitoringMode .degraded [] 100
      { monitoring_mode := .normal, last_mode_change := 0,
        mode_change_count := 2 }).last_mode_change = 100
    ∧ (updateMonitoringMode .degraded [] 100
      { monitoring_mode := .normal, last_mode_change := 0,
        mode_change_count := 2 }).mode_change_count
      = (if computeNewMode .degraded []
            (ModeState.monitoring_mode
              { monitoring_mode := .normal, last_mode_change := 0,
                mode_change_count := 2 }) = .normal
         then max 0 ((2 : Int) + 1 - 1) else (2 : Int) + 1) :=
  (mode_change_count_update .degraded [] 100
    { monitoring_mode := .normal, last_mode_change := 0,
      mode_change_count := 2 }).2 (by decide)

theorem tryFallbackHosts_eq_find (s : FallbackStrategy)
    (probe : NetworkTarget → ConnectivityTest) (target : NetworkTarget)
    (l : List String) :
    tryFallbackHosts s probe target l
      = (l.find? (fun fb => (probe (fallbackTarget s target fb)).success)).map
          (fun fb =>
            { success := true
              response_time := (probe (fallbackTarget s target fb)).response_time
              error := some ("fallback:" ++ fb)
              timestamp := (probe (fallbackTarget s target fb)).timestamp }) := by
  induction l with
  | nil => rfl
  | cons fb rest ih =>
    unfold tryFallbackHosts
    rw [List.find?_cons]
    cases h : (probe (fallbackTarget s target fb)).success with
    | true => simp [h]
    | false => simp [h, ih]

/-- C3: the fallback cascade, when the primary probe fails and endpoint
fallback is enabled, tries the fallback hosts in configured order (each
against the synthetic target carrying the multiplied timeout) and returns
the first fallback success tagged `error = "fallback:<host>"`; when the
primary and every fallback fail it returns the original primary failure
result. -/
theorem fallback_cascade (s : FallbackStrategy)
    (probe : NetworkTarget → ConnectivityTest) (target : NetworkTarget)
    (hfail : (probe target).success = false)
    (hen : s.enable_endpoint_fallback = true) :
    (∀ fb, target.fallback_hosts.find?
        (fun h => (probe (fallbackTarget s target h)).success) = some fb →
      testTargetWithFallback s probe target
        = { success := true
            response_time := (probe (fallbackTarget s target fb)).response_time
            error := some ("fallback:" ++ fb)
            timestamp := (probe (fallbackTarget s target fb)).timestamp })
    ∧ (target.fallback_hosts.find?
        (fun h => (probe (fallbackTarget s target h)).success) = none →
      testTargetWithFallback s probe target = probe target) := by
  have hcond : ((probe target).success || !s.enable_endpoint_fallback) = false := by
    rw [hfail, hen]
    rfl
  constructor
  · intro fb hfind
    unfold testTargetWithFallback
    rw [if_neg (by simp [hcond]), tryFallbackHosts_eq_find, hfind]
    rfl
  · intro hfind
    unfold testTargetWithFallback
    rw [if_neg (by simp [hcond]), tryFallbackHosts_eq_find, hfind]
    rfl

/-- C3 witness: with a primary that fails, a first fallback that fails
and a second fallback `fb2` that succeeds, the cascade returns the
`fb2` success tagged `fallback:fb2`; with every host failing, it
returns the primary failure itself. -/
theorem fallback_cascade_witness :
    testTargetWithFallback {} probeOnlyFb2 tcpTargetW
      = { success := true
          response_time :=
            (probeOnlyFb2 (fallbackTarget {} tcpTargetW "fb2")).response_time
          error := some ("fallback:" ++ "fb2")
          timestamp :=
            (probeOnlyFb2 (fallbackTarget {} tcpTargetW "fb2")).timestamp }
    ∧ testTargetWithFallback {} probeAllFail tcpTargetW
      = probeAllFail tcpTargetW :=
  ⟨(fallback_cascade {} probeOnlyFb2 tcpTargetW rfl rfl).1 "fb2" (by rfl),
   (fallback_cascade {} probeAllFail tcpTargetW rfl rfl).2 (by rfl)⟩

theorem countP_pos_iff_any (l : List α) (p : α → Bool) :
    0 < l.countP p ↔ l.any p = true := by
  rw [List.countP_pos_iff, List.any_eq_true]

theorem countP_and_eq_of_all (l : List α) (p q : α → Bool)
    (h : ∀ a ∈ l, p a = true → q a = true) :
    l.countP (fun a => p a && q a) = l.countP p := by
  induction l with
  | nil => rfl
  | cons a t ih =>
    rw [List.countP_cons, List.countP_cons,
      ih (fun b hb => h b (List.mem_cons_of_mem a hb))]
    by_cases hp : p a = true
    · have hq := h a (List.mem_cons_self a t) hp
      simp [hp, hq]
    · rw [Bool.not_eq_true] at hp
      simp [hp]

theorem countP_and_le (l : List α) (p q : α → Bool) :
    l.countP (fun a => p a && q a) ≤ l.countP p := by
  apply List.countP_mono_left
  intro a _ ha
  exact (Bool.and_elim_left ha)

theorem countP_and_lt_of_exists (l : List α) (p q : α → Bool)
    (h : ∃ a ∈ l, p a = true ∧ q a = false) :
    l.countP (fun a => p a && q a) < l.countP p := by
  induction l with
  | nil => simp at h
  | cons a t ih =>
    rw [List.countP_cons, List.countP_cons]
    rcases h with ⟨b, hb, hpb, hqb⟩
    rcases List.mem_cons.mp hb with rfl | hbt
    · have h1 : (p b && q b) = false := by simp [hpb, hqb]
      have h2 := countP_and_le t p q
      rw [h1, hpb]
      simp
      omega
    · have := ih ⟨b, hbt, hpb, hqb⟩
      by_cases hp : p a = true
      · by_cases hq : q a = true
        · simp [hp, hq]
          omega
        · rw [Bool.not_eq_true] at hq
          simp [hp, hq]
          omega
      · rw [Bool.not_eq_true] at hp
        simp [hp]
        omega

theorem anyDegraded_eq_of_no_critical_failing
    (pairs : List (NetworkTarget × NetworkMetrics))
    (h : someCriticalFailing pairs = false) :
    anyDegraded pairs = anyTargetDegradedOrFailing pairs := by
  induction pairs with
  | nil => rfl
  | cons a t ih =>
    unfold someCriticalFailing at h ih
    rw [List.any_cons, Bool.or_eq_false_iff] at h
    unfold anyDegraded anyTargetDegradedOrFailing at ih ⊢
    rw [List.any_cons, List.any_cons, ih h.2]
    congr 1
    by_cases hc : a.1.critical = true
    · have : (a.2.current_status == NetworkStatus.failing) = false := by
        have := h.1
        simpa [hc] using this
      simp [hc, this]
    · rw [Bool.not_eq_true] at hc
      simp [hc]

theorem criticalFailures_le_totalCritical
    (pairs : List (NetworkTarget × NetworkMetrics)) :
    criticalFailures pairs ≤ totalCritical pairs :=
  countP_and_le pairs _ _

theorem someCriticalFailing_iff_pos
    (pairs : List (NetworkTarget × NetworkMetrics)) :
    someCriticalFailing pairs = true ↔ 0 < criticalFailures pairs :=
  Iff.symm (countP_pos_iff_any pairs _)

theorem anyRecentFallback_iff_pos
    (pairs : List (NetworkTarget × NetworkMetrics)) :
    anyRecentFallback pairs = true ↔ 0 < fallbackSuccesses pairs :=
  Iff.symm (countP_pos_iff_any pairs _)

/-- C1: the aggregation rules, in order, for any registry holding at
least one critical target — all critical targets Failing gives Offline;
some-but-not-all critical targets Failing gives Degraded when a recent
fallback success exists anywhere and Failing otherwise; no critical
target Failing gives Degraded when some target is Degraded/Failing or a
recent fallback success exists anywhere, and Healthy otherwise. -/
theorem overall_status_aggregation
    (pairs : List (NetworkTarget × NetworkMetrics))
    (hcrit : 0 < totalCritical pairs) :
    (allCriticalFailing pairs = true →
      updateOverallStatus pairs = .offline)
    ∧ (someCriticalFailing pairs = true → allCriticalFailing pairs = false →
      updateOverallStatus pairs
        = (if anyRecentFallback pairs = true then .degraded else .failing))
    ∧ (someCriticalFailing pairs = false →
      updateOverallStatus pairs
        = (if anyTargetDegradedOrFailing pairs = true
              ∨ anyRecentFallback pairs = true
           then .degraded else .healthy)) := by
  have hfb := anyRecentFallback_iff_pos pairs
  refine ⟨?_, ?_, ?_⟩
  · intro hall
    unfold allCriticalFailing at hall
    rw [List.all_eq_true] at hall
    have heq : criticalFailures pairs = totalCritical pairs := by
      apply countP_and_eq_of_all
      intro a ha hp
      have := hall a ha
      simpa [hp] using this
    unfold updateOverallStatus
    rw [if_pos ⟨hcrit, le_of_eq heq.symm⟩]
  · intro hsome hnall
    have hpos : 0 < criticalFailures pairs :=
      (someCriticalFailing_iff_pos pairs).mp hsome
    have hlt : criticalFailures pairs < totalCritical pairs := by
      apply countP_and_lt_of_exists
      unfold allCriticalFailing at hnall
      rw [List.all_eq_false] at hnall
      rcases hnall with ⟨a, ha, hpa⟩
      rw [Bool.not_eq_true, Bool.or_eq_false_iff] at hpa
      refine ⟨a, ha, ?_, hpa.2⟩
      simpa using hpa.1
    unfold updateOverallStatus
    rw [if_neg (by omega), if_pos hpos]
    by_cases hf : anyRecentFallback pairs = true
    · rw [if_pos (hfb.mp hf), if_pos hf]
    · have hf2 : ¬ 0 < fallbackSuccesses pairs := fun hc => hf (hfb.mpr hc)
      rw [if_neg hf2, if_neg hf]
  · intro hnone
    have hzero : criticalFailures pairs = 0 := by
      by_contra hne
      have hpos : 0 < criticalFailures pairs := Nat.pos_of_ne_zero hne
      have := (someCriticalFailing_iff_pos pairs).mpr hpos
      rw [hnone] at this
      cases this
    have hdeg := anyDegraded_eq_of_no_critical_failing pairs hnone
    unfold updateOverallStatus
    rw [if_neg (by omega), if_neg (by omega)]
    by_cases hA : anyDegraded pairs = true
    · rw [if_pos (Or.inl hA), if_pos (Or.inl (hdeg.symm.trans hA))]
    · by_cases hB : anyRecentFallback pairs = true
      · rw [if_pos (Or.inr (hfb.mp hB)), if_pos (Or.inr hB)]
      · have hc1 : ¬ (anyDegraded pairs = true ∨ 0 < fallbackSuccesses pairs) := by
          rintro (h | h)
          · exact hA h
          · exact hB (hfb.mpr h)
        have hc2 : ¬ (anyTargetDegradedOrFailing pairs = true
            ∨ anyRecentFallback pairs = true) := by
          rintro (h | h)
          · exact hA (hdeg.trans h)
          · exact hB h
        rw [if_neg hc1, if_neg hc2]

/-- C1 witness: two critical targets with exactly one Failing and no
fallback usage anywhere — the overall status is Failing (so neither
Offline nor Degraded). -/
theorem overall_status_aggregation_witness :
    updateOverallStatus [(tcpTargetW, failingMetricsW),
        (dnsTargetW, healthyMetricsW)]
      = (if anyRecentFallback [(tcpTargetW, failingMetricsW),
            (dnsTargetW, healthyMetricsW)] = true
         then NetworkStatus.degraded else NetworkStatus.failing) :=
  (overall_status_aggregation
    [(tcpTargetW, failingMetricsW), (dnsTargetW, healthyMetricsW)]
    (by decide)).2.1 (by decide) (by decide)

/-- C10: a registry with no critical target never aggregates to Offline:
the result is always Degraded or Healthy. -/
theorem no_critical_targets_never_offline
    (pairs : List (NetworkTarget × NetworkMetrics))
    (h : totalCritical pairs = 0) :
    updateOverallStatus pairs ≠ .offline
    ∧ (updateOverallStatus pairs = .degraded
      ∨ updateOverallStatus pairs = .healthy) := by
  have hcf : criticalFailures pairs = 0 := by
    have := criticalFailures_le_totalCritical pairs
    omega
  have : updateOverallStatus pairs = .degraded
      ∨ updateOverallStatus pairs = .healthy := by
    unfold updateOverallStatus
    rw [if_neg (by omega), if_neg (by omega)]
    split
    · exact Or.inl rfl
    · exact Or.inr rfl
  refine ⟨?_, this⟩
  rcases this with h1 | h1 <;> rw [h1] <;> intro hc <;> cases hc

/-- C10 witness: a registry holding only a failing non-critical target
is not Offline. -/
theorem no_critical_targets_never_offline_witness :
    updateOverallStatus [(httpTargetW, failingMetricsW)]
      ≠ NetworkStatus.offline :=
  (no_critical_targets_never_offline [(httpTargetW, failingMetricsW)]
    (by decide)).1

end VimeoMonitor
